import Mathlib

set_option maxRecDepth 100000

/-!
Shallow embedding of `src/server.js` (fitness-harley-quinn-server): an
Express backend with a subscription-creation endpoint that makes three
sequential Stripe calls, a webhook endpoint, and a dead price-lookup
helper.  JavaScript numbers are modelled as IEEE binary64 values encoded
as exact rationals, with NaN and infinities as separate constructors.
-/

namespace Server

/-- A nonzero finite binary64 value `m * 2^e` in canonical form (`m` odd),
or zero as `⟨0, 0⟩`.  Canonical dyadic form represents every finite double
uniquely, so structural equality is value equality. -/
structure Dyadic where
  m : ℤ
  e : ℤ
deriving DecidableEq, Repr

/-- A JavaScript number: NaN, ±Infinity, or a finite binary64 value. -/
inductive JsNumber where
  | nan : JsNumber
  | inf (neg : Bool) : JsNumber
  | num (d : Dyadic) : JsNumber
deriving DecidableEq, Repr

/-- `max` on ℤ, written out so that it reduces by computation. -/
def imax (a b : ℤ) : ℤ := if a ≤ b then b else a

/-- Whether `2^e ≤ n / d` (for `d > 0`), by cross multiplication. -/
def pow2LeFrac (e : ℤ) (n d : ℕ) : Bool :=
  if 0 ≤ e then 2 ^ e.toNat * d ≤ n else d ≤ 2 ^ (-e).toNat * n

/-- Fuel-bounded base-2 logarithm (structural recursion so that it
reduces by computation; `fuel ≥ ⌊log2 n⌋` suffices). -/
def natLog2Fuel (fuel n : ℕ) : ℕ :=
  match fuel with
  | 0 => 0
  | fuel + 1 => if 2 ≤ n then natLog2Fuel fuel (n / 2) + 1 else 0

/-- `⌊log2 n⌋` (0 for `n = 0`). -/
def natLog2 (n : ℕ) : ℕ := natLog2Fuel n n

/-- Largest `e : ℤ` with `2^e ≤ n / d`, for `n, d ≥ 1`. -/
def fracLog2 (n d : ℕ) : ℤ :=
  let e0 : ℤ := (natLog2 n : ℤ) - (natLog2 d : ℤ)
  if pow2LeFrac (e0 + 1) n d then e0 + 1
  else if pow2LeFrac e0 n d then e0
  else e0 - 1

/-- Round `N / D` (for `D > 0`) to the nearest natural, ties to even. -/
def rndHalfEvenNat (N D : ℕ) : ℕ :=
  let q := N / D
  let r := N % D
  if 2 * r < D then q
  else if D < 2 * r then q + 1
  else if q % 2 = 0 then q else q + 1

/-- Split `m` as `o * 2^k` with `o` odd (for `m ≥ 1`; fuel-bounded
structural recursion, enough fuel for any 64-bit-wide significand). -/
def stripTwos (fuel m : ℕ) : ℕ × ℕ :=
  match fuel with
  | 0 => (m, 0)
  | fuel + 1 =>
    if m % 2 = 0 ∧ m ≠ 0 then
      let p := stripTwos fuel (m / 2)
      (p.1, p.2 + 1)
    else (m, 0)

/-- The canonical dyadic for `±m * 2^s`. -/
def mkDyadic (neg : Bool) (m : ℕ) (s : ℤ) : Dyadic :=
  if m = 0 then ⟨0, 0⟩
  else
    let p := stripTwos 64 m
    ⟨if neg then -(p.1 : ℤ) else (p.1 : ℤ), s + (p.2 : ℤ)⟩

/-- Whether `m * 2^s ≥ 2^1024`, the binary64 overflow threshold. -/
def dyadicOverflow (m : ℕ) (s : ℤ) : Bool :=
  if 0 ≤ 1024 - s then 2 ^ (1024 - s).toNat ≤ m else 0 < m

/-- Round the positive fraction `n / d` (`n, d ≥ 1`) to the nearest
binary64 value with sign `neg`: round to nearest, ties to even, subnormal
exponents clamped at −1022, overflow to ±Infinity. -/
def mkDouble (neg : Bool) (n d : ℕ) : JsNumber :=
  if n = 0 then .num ⟨0, 0⟩
  else
    let e := imax (fracLog2 n d) (-1022)
    let s := 52 - e
    let m := if 0 ≤ s then rndHalfEvenNat (n * 2 ^ s.toNat) d
             else rndHalfEvenNat n (d * 2 ^ (-s).toNat)
    if m = 0 then .num ⟨0, 0⟩
    else if dyadicOverflow m (e - 52) then .inf neg
    else .num (mkDyadic neg m (e - 52))

/-- The JavaScript number of a natural-number literal. -/
def jsOfNat (n : ℕ) : JsNumber := mkDouble false n 1

/-- Round `±a * 2^s` to the nearest binary64 value. -/
def roundDyadic (neg : Bool) (a : ℕ) (s : ℤ) : JsNumber :=
  if 0 ≤ s then mkDouble neg (a * 2 ^ s.toNat) 1
  else mkDouble neg a (2 ^ (-s).toNat)

/-- JavaScript multiplication on numbers: NaN propagates, infinities
follow sign rules (`±∞ * 0 = NaN`), and finite products are rounded to
binary64. -/
def jsMul : JsNumber → JsNumber → JsNumber
  | .nan, _ => .nan
  | .inf _, .nan => .nan
  | .num _, .nan => .nan
  | .inf s, .inf t => .inf (xor s t)
  | .inf s, .num d => if d.m = 0 then .nan else .inf (xor s (decide (d.m < 0)))
  | .num d, .inf s => if d.m = 0 then .nan else .inf (xor s (decide (d.m < 0)))
  | .num a, .num b =>
    roundDyadic (decide (a.m * b.m < 0)) (a.m * b.m).natAbs (a.e + b.e)

/-- Numeric value of a list of decimal digit characters. -/
def digitsToNat (ds : List Char) : ℕ :=
  ds.foldl (fun acc c => acc * 10 + (c.toNat - 48)) 0

/-- Parse an optional exponent part (`e`/`E`, optional sign, digits) at the
head of the character list; an absent or malformed exponent contributes 0,
matching `parseFloat`'s longest-valid-prefix rule. -/
def parseExpPart (l : List Char) : ℤ :=
  match l with
  | 'e' :: rest | 'E' :: rest =>
    match rest with
    | '-' :: ds =>
      let digits := ds.takeWhile Char.isDigit
      if digits.isEmpty then 0 else -(digitsToNat digits : ℤ)
    | '+' :: ds =>
      let digits := ds.takeWhile Char.isDigit
      if digits.isEmpty then 0 else (digitsToNat digits : ℤ)
    | ds =>
      let digits := ds.takeWhile Char.isDigit
      if digits.isEmpty then 0 else (digitsToNat digits : ℤ)
  | _ => 0

/-- Parse the unsigned decimal-literal prefix (`digits [. digits] [exp]` or
`. digits [exp]`) of a character list as a pair (significand, decimal
exponent); `none` when no digit is present. -/
def parseUnsignedDecimal (l : List Char) : Option (ℕ × ℤ) :=
  let intDigits := l.takeWhile Char.isDigit
  let rest := l.dropWhile Char.isDigit
  match rest with
  | '.' :: afterDot =>
    let fracDigits := afterDot.takeWhile Char.isDigit
    if intDigits.isEmpty ∧ fracDigits.isEmpty then none
    else
      some (digitsToNat (intDigits ++ fracDigits),
        parseExpPart (afterDot.dropWhile Char.isDigit) -
          (fracDigits.length : ℤ))
  | other =>
    if intDigits.isEmpty then none
    else some (digitsToNat intDigits, parseExpPart other)

/-- JavaScript `parseFloat`: skip leading whitespace, optional sign, then
the longest decimal-literal or `Infinity` prefix; NaN when no numeric
prefix exists.  The parsed exact decimal value `±n0 * 10^e10` is rounded
to binary64. -/
def parseFloat (s : String) : JsNumber :=
  let l := s.toList.dropWhile Char.isWhitespace
  let signed : Bool × List Char :=
    match l with
    | '-' :: rest => (true, rest)
    | '+' :: rest => (false, rest)
    | _ => (false, l)
  if ("Infinity".toList).isPrefixOf signed.2 then .inf signed.1
  else
    match parseUnsignedDecimal signed.2 with
    | none => .nan
    | some (n0, e10) =>
      if 0 ≤ e10 then mkDouble signed.1 (n0 * 10 ^ e10.toNat) 1
      else mkDouble signed.1 n0 (10 ^ (-e10).toNat)

/-- The JSON body of a POST `/create-payment-intent` request. -/
structure PaymentRequest where
  programName : String
  programPrice : String
  email : String
  name : String
deriving DecidableEq, Repr

/-- A JavaScript error value as read by the handler's catch block:
`error.message` and `error.type` (`type` is `undefined` on plain runtime
errors such as TypeError, hence `Option`). -/
structure JsError where
  message : String
  errType : Option String
deriving DecidableEq, Repr

/-- Argument object of `stripe.customers.create`. -/
structure CustomerParams where
  email : String
  name : String
  metadataProgramName : String
deriving DecidableEq, Repr

/-- A Stripe customer, as used by the handler (only its id is read). -/
structure Customer where
  id : String
deriving DecidableEq, Repr

/-- Argument object of `stripe.prices.create`. -/
structure PriceParams where
  unit_amount : JsNumber
  currency : String
  recurringInterval : String
  productName : String
deriving DecidableEq, Repr

/-- A Stripe price, as used by the handler (only its id is read). -/
structure Price where
  id : String
deriving DecidableEq, Repr

/-- Argument object of `stripe.subscriptions.create`. -/
structure SubscriptionParams where
  customer : String
  itemsPrice : String
  payment_behavior : String
  saveDefaultPaymentMethod : String
  expand : List String
deriving DecidableEq, Repr

/-- An expanded payment intent as returned inside the subscription. -/
structure PaymentIntent where
  client_secret : String
deriving DecidableEq, Repr

/-- The latest invoice of a returned subscription; `payment_intent` may be
absent (`null`/unexpanded). -/
structure Invoice where
  payment_intent : Option PaymentIntent
deriving DecidableEq, Repr

/-- A Stripe subscription as returned by `stripe.subscriptions.create`;
`latest_invoice` may be absent. -/
structure Subscription where
  id : String
  latest_invoice : Option Invoice
deriving DecidableEq, Repr

/-- The behaviour of the external Stripe API during one request: each
create call either returns an object or raises an error. -/
structure Stripe where
  customersCreate : CustomerParams → Except JsError Customer
  pricesCreate : PriceParams → Except JsError Price
  subscriptionsCreate : SubscriptionParams → Except JsError Subscription

/-- One outbound call to the payment processor, with its argument. -/
inductive StripeCall where
  | customersCreate (p : CustomerParams)
  | pricesCreate (p : PriceParams)
  | subscriptionsCreate (p : SubscriptionParams)
deriving DecidableEq, Repr

/-- A response body produced by one of the two POST handlers. -/
inductive ResponseBody where
  | paymentJson (subscriptionId : String) (clientSecret : String)
  | errorJson (message : String) (errType : Option String)
  | receivedJson
  | text (s : String)
deriving DecidableEq, Repr

/-- An HTTP response: status code and body. -/
structure HttpResponse where
  status : ℕ
  body : ResponseBody
deriving DecidableEq, Repr

/-- The customer-creation argument built from the request body
(`email`, `name`, `metadata.programName`). -/
def customerParamsOf (req : PaymentRequest) : CustomerParams :=
  ⟨req.email, req.name, req.programName⟩

/-- The price-creation argument built from the request body:
`unit_amount: parseFloat(programPrice) * 100`, monthly recurring USD,
product named after the program. -/
def priceParamsOf (req : PaymentRequest) : PriceParams :=
  ⟨jsMul (parseFloat req.programPrice) (jsOfNat 100), "usd", "month",
    req.programName⟩

/-- The subscription-creation argument built from the created customer and
price ids. -/
def subscriptionParamsOf (customerId priceId : String) : SubscriptionParams :=
  ⟨customerId, priceId, "default_incomplete", "on_subscription",
    ["latest_invoice.payment_intent"]⟩

/-- The unguarded property chain
`subscription.latest_invoice.payment_intent.client_secret`: reading a
property of `null`/`undefined` raises a TypeError (whose `type` field is
`undefined`). -/
def getClientSecret (s : Subscription) : Except JsError String :=
  match s.latest_invoice with
  | none =>
    .error ⟨"Cannot read properties of null (reading 'payment_intent')", none⟩
  | some inv =>
    match inv.payment_intent with
    | none =>
      .error ⟨"Cannot read properties of null (reading 'client_secret')", none⟩
    | some pi => .ok pi.client_secret

/-- The HTTP 500 response produced by the catch block:
`res.status(500).json({error: {message, type}})`. -/
def catchResponse (e : JsError) : HttpResponse :=
  ⟨500, .errorJson e.message e.errType⟩

/-- The POST `/create-payment-intent` handler: sequentially create a
customer, a price, and a subscription, then respond with the subscription
id and the expanded payment intent's client secret; any error raised in
the try block is answered by the catch block.  Returns the list of
processor calls made (in order) together with the response. -/
def createPaymentIntent (st : Stripe) (req : PaymentRequest) :
    List StripeCall × HttpResponse :=
  let cp := customerParamsOf req
  match st.customersCreate cp with
  | .error e => ([.customersCreate cp], catchResponse e)
  | .ok customer =>
    let pp := priceParamsOf req
    match st.pricesCreate pp with
    | .error e => ([.customersCreate cp, .pricesCreate pp], catchResponse e)
    | .ok price =>
      let sp := subscriptionParamsOf customer.id price.id
      match st.subscriptionsCreate sp with
      | .error e =>
        ([.customersCreate cp, .pricesCreate pp, .subscriptionsCreate sp],
          catchResponse e)
      | .ok subscription =>
        match getClientSecret subscription with
        | .error e =>
          ([.customersCreate cp, .pricesCreate pp, .subscriptionsCreate sp],
            catchResponse e)
        | .ok cs =>
          ([.customersCreate cp, .pricesCreate pp, .subscriptionsCreate sp],
            ⟨200, .paymentJson subscription.id cs⟩)

/-- A webhook event as used by the handler: its type tag and the id of
`event.data.object`. -/
structure Event where
  eventType : String
  objectId : String
deriving DecidableEq, Repr

/-- The log line written by the event-type switch. -/
def dispatchLog (event : Event) : String :=
  if event.eventType = "customer.subscription.created" then
    "New subscription created: " ++ event.objectId
  else if event.eventType = "invoice.payment_succeeded" then
    "Payment succeeded for invoice: " ++ event.objectId
  else if event.eventType = "payment_intent.succeeded" then
    "Payment succeeded: " ++ event.objectId
  else
    "Unhandled event type " ++ event.eventType

/-- The POST `/webhook` handler, parameterised by the processor's
signature-verification primitive `constructEvent` (body, signature header,
secret): on verification failure respond 400 with a plain-text error, else
run the event-type switch (logging only) and respond `{received: true}`.
Returns the response together with the switch's log line (`none` when
dispatch is never reached). -/
def webhookHandler
    (constructEvent : String → Option String → String → Except JsError Event)
    (body : String) (sig : Option String) (secret : String) :
    HttpResponse × Option String :=
  match constructEvent body sig secret with
  | .error err => (⟨400, .text ("Webhook Error: " ++ err.message)⟩, none)
  | .ok event => (⟨200, .receivedJson⟩, some (dispatchLog event))

/-- The `priceIds` object literal of `getPriceIdForProgram`. -/
def priceIds : List (String × String) :=
  [("strength", "price_id_for_strength"),
   ("complete", "price_id_for_complete"),
   ("group", "price_id_for_group")]

/-- `getPriceIdForProgram`: look the program name up in the static
`priceIds` table (`undefined`, i.e. `none`, when absent). -/
def getPriceIdForProgram (programName : String) : Option String :=
  priceIds.lookup programName

/-- A request to one of the two POST routes. -/
inductive Request where
  | createPaymentIntent (req : PaymentRequest)
  | webhook (body : String) (sig : Option String)
deriving Repr

/-- Dispatch a POST request to its handler.  The price-lookup table is
passed as the `lookup` parameter so that (in)dependence of responses on it
can be stated; as in the source, no handler consults it. -/
def handleRequest (st : Stripe)
    (constructEvent : String → Option String → String → Except JsError Event)
    (secret : String) (lookup : String → Option String) :
    Request → HttpResponse
  | .createPaymentIntent req => (createPaymentIntent st req).2
  | .webhook body sig => (webhookHandler constructEvent body sig secret).1

/-! Concrete sample data used to exercise the handlers. -/

/-- A sample well-formed payment request. -/
def sampleRequest : PaymentRequest :=
  ⟨"strength", "29.99", "jane@example.com", "Jane"⟩

/-- A payment request whose price string is not convertible to a number. -/
def nanRequest : PaymentRequest :=
  ⟨"strength", "free", "jane@example.com", "Jane"⟩

/-- A sample processor error. -/
def sampleError : JsError :=
  ⟨"Invalid email address", some "StripeInvalidRequestError"⟩

/-- A sample created customer. -/
def sampleCustomer : Customer := ⟨"cus_123"⟩

/-- A sample created price. -/
def samplePrice : Price := ⟨"price_123"⟩

/-- A sample created subscription with an expanded payment intent. -/
def sampleSubscription : Subscription :=
  ⟨"sub_123", some ⟨some ⟨"pi_secret_123"⟩⟩⟩

/-- A sample created subscription whose latest invoice is missing. -/
def noInvoiceSubscription : Subscription := ⟨"sub_123", none⟩

/-- A processor on which all three create calls succeed. -/
def okStripe : Stripe :=
  ⟨fun _ => .ok sampleCustomer, fun _ => .ok samplePrice,
   fun _ => .ok sampleSubscription⟩

/-- A processor that rejects customer creation. -/
def customerFailStripe : Stripe :=
  ⟨fun _ => .error sampleError, fun _ => .ok samplePrice,
   fun _ => .ok sampleSubscription⟩

/-- A processor that rejects price creation. -/
def priceFailStripe : Stripe :=
  ⟨fun _ => .ok sampleCustomer, fun _ => .error sampleError,
   fun _ => .ok sampleSubscription⟩

/-- A processor that rejects subscription creation. -/
def subFailStripe : Stripe :=
  ⟨fun _ => .ok sampleCustomer, fun _ => .ok samplePrice,
   fun _ => .error sampleError⟩

/-- A processor whose subscription comes back without a latest invoice. -/
def noInvoiceStripe : Stripe :=
  ⟨fun _ => .ok sampleCustomer, fun _ => .ok samplePrice,
   fun _ => .ok noInvoiceSubscription⟩

/-- A sample verified webhook event. -/
def sampleEvent : Event := ⟨"payment_intent.succeeded", "pi_123"⟩

/-- The signature-verification error raised on a bad signature. -/
def badSigError : JsError :=
  ⟨"No signatures found matching the expected signature for payload", none⟩

/-- A verification primitive that accepts every request. -/
def okVerify : String → Option String → String → Except JsError Event :=
  fun _ _ _ => .ok sampleEvent

/-- A verification primitive that rejects every request. -/
def failVerify : String → Option String → String → Except JsError Event :=
  fun _ _ _ => .error badSigError

/-! Branch equations for the subscription-creation handler. -/

/-- When customer creation fails, the handler stops there and answers with
the catch block. -/
theorem createPaymentIntent_customerError (st : Stripe) (req : PaymentRequest)
    (e : JsError) (hc : st.customersCreate (customerParamsOf req) = .error e) :
    createPaymentIntent st req =
      ([.customersCreate (customerParamsOf req)], catchResponse e) := by
  simp [createPaymentIntent, hc]

/-- When price creation fails, the handler stops there and answers with the
catch block. -/
theorem createPaymentIntent_priceError (st : Stripe) (req : PaymentRequest)
    (c : Customer) (e : JsError)
    (hc : st.customersCreate (customerParamsOf req) = .ok c)
    (hp : st.pricesCreate (priceParamsOf req) = .error e) :
    createPaymentIntent st req =
      ([.customersCreate (customerParamsOf req),
        .pricesCreate (priceParamsOf req)], catchResponse e) := by
  simp [createPaymentIntent, hc, hp]

/-- When subscription creation fails, the handler answers with the catch
block after the three calls. -/
theorem createPaymentIntent_subError (st : Stripe) (req : PaymentRequest)
    (c : Customer) (p : Price) (e : JsError)
    (hc : st.customersCreate (customerParamsOf req) = .ok c)
    (hp : st.pricesCreate (priceParamsOf req) = .ok p)
    (hs : st.subscriptionsCreate (subscriptionParamsOf c.id p.id) = .error e) :
    createPaymentIntent st req =
      ([.customersCreate (customerParamsOf req),
        .pricesCreate (priceParamsOf req),
        .subscriptionsCreate (subscriptionParamsOf c.id p.id)],
       catchResponse e) := by
  simp [createPaymentIntent, hc, hp, hs]

/-- When all three calls succeed but reading the client secret raises, the
handler answers with the catch block after the three calls. -/
theorem createPaymentIntent_secretError (st : Stripe) (req : PaymentRequest)
    (c : Customer) (p : Price) (s : Subscription) (e : JsError)
    (hc : st.customersCreate (customerParamsOf req) = .ok c)
    (hp : st.pricesCreate (priceParamsOf req) = .ok p)
    (hs : st.subscriptionsCreate (subscriptionParamsOf c.id p.id) = .ok s)
    (hcs : getClientSecret s = .error e) :
    createPaymentIntent st req =
      ([.customersCreate (customerParamsOf req),
        .pricesCreate (priceParamsOf req),
        .subscriptionsCreate (subscriptionParamsOf c.id p.id)],
       catchResponse e) := by
  simp [createPaymentIntent, hc, hp, hs, hcs]

/-- When all three calls succeed and the client secret is readable, the
handler responds 200 with the subscription id and client secret. -/
theorem createPaymentIntent_ok (st : Stripe) (req : PaymentRequest)
    (c : Customer) (p : Price) (s : Subscription) (cs : String)
    (hc : st.customersCreate (customerParamsOf req) = .ok c)
    (hp : st.pricesCreate (priceParamsOf req) = .ok p)
    (hs : st.subscriptionsCreate (subscriptionParamsOf c.id p.id) = .ok s)
    (hcs : getClientSecret s = .ok cs) :
    createPaymentIntent st req =
      ([.customersCreate (customerParamsOf req),
        .pricesCreate (priceParamsOf req),
        .subscriptionsCreate (subscriptionParamsOf c.id p.id)],
       ⟨200, .paymentJson s.id cs⟩) := by
  simp [createPaymentIntent, hc, hp, hs, hcs]

/-- Every price-creation call in the handler's trace carries the argument
built from the request. -/
theorem trace_pricesCreate_eq (st : Stripe) (req : PaymentRequest)
    (pp : PriceParams)
    (h : StripeCall.pricesCreate pp ∈ (createPaymentIntent st req).1) :
    pp = priceParamsOf req := by
  rcases hc : st.customersCreate (customerParamsOf req) with e | c
  · rw [createPaymentIntent_customerError st req e hc] at h
    simp at h
  · rcases hp : st.pricesCreate (priceParamsOf req) with e | p
    · rw [createPaymentIntent_priceError st req c e hc hp] at h
      simpa using h
    · rcases hs : st.subscriptionsCreate (subscriptionParamsOf c.id p.id)
        with e | s
      · rw [createPaymentIntent_subError st req c p e hc hp hs] at h
        simpa using h
      · rcases hcs : getClientSecret s with e | cs
        · rw [createPaymentIntent_secretError st req c p s e hc hp hs hcs] at h
          simpa using h
        · rw [createPaymentIntent_ok st req c p s cs hc hp hs hcs] at h
          simpa using h

/-- Once customer creation succeeds, the price-creation call is made. -/
theorem pricesCreate_mem_trace (st : Stripe) (req : PaymentRequest)
    (c : Customer) (hc : st.customersCreate (customerParamsOf req) = .ok c) :
    StripeCall.pricesCreate (priceParamsOf req) ∈
      (createPaymentIntent st req).1 := by
  rcases hp : st.pricesCreate (priceParamsOf req) with e | p
  · rw [createPaymentIntent_priceError st req c e hc hp]
    simp
  · rcases hs : st.subscriptionsCreate (subscriptionParamsOf c.id p.id)
      with e | s
    · rw [createPaymentIntent_subError st req c p e hc hp hs]
      simp
    · rcases hcs : getClientSecret s with e | cs
      · rw [createPaymentIntent_secretError st req c p s e hc hp hs hcs]
        simp
      · rw [createPaymentIntent_ok st req c p s cs hc hp hs hcs]
        simp

/-! Claim theorems. -/

/-- C1: for every subscription-creation request whose programPrice field is
the string "29.99", the unit_amount forwarded to the processor's
price-creation call equals exactly 2999 (cents): the binary64 product
`parseFloat("29.99") * 100` rounds to the integer 2999 exactly. -/
theorem C1_unit_amount_exactly_2999 (st : Stripe) (req : PaymentRequest)
    (hreq : req.programPrice = "29.99") (pp : PriceParams)
    (hmem : StripeCall.pricesCreate pp ∈ (createPaymentIntent st req).1) :
    pp.unit_amount = jsOfNat 2999 := by
  rw [trace_pricesCreate_eq st req pp hmem]
  have hu : (priceParamsOf req).unit_amount =
      jsMul (parseFloat req.programPrice) (jsOfNat 100) := rfl
  rw [hu, hreq]
  decide

/-- Witness for C1 at a concrete request and processor. -/
theorem C1_unit_amount_exactly_2999_witness :
    (priceParamsOf sampleRequest).unit_amount = jsOfNat 2999 :=
  C1_unit_amount_exactly_2999 okStripe sampleRequest rfl
    (priceParamsOf sampleRequest)
    (pricesCreate_mem_trace okStripe sampleRequest sampleCustomer rfl)

/-- C2: for every subscription-creation request, if the processor's
customer-creation call fails, the handler responds HTTP 500 and performs
neither the price-creation call nor the subscription-creation call. -/
theorem C2_customer_failure_stops (st : Stripe) (req : PaymentRequest)
    (e : JsError)
    (hc : st.customersCreate (customerParamsOf req) = .error e) :
    (createPaymentIntent st req).2.status = 500 ∧
    (∀ pp, StripeCall.pricesCreate pp ∉ (createPaymentIntent st req).1) ∧
    (∀ sp, StripeCall.subscriptionsCreate sp ∉
      (createPaymentIntent st req).1) := by
  rw [createPaymentIntent_customerError st req e hc]
  refine ⟨rfl, ?_, ?_⟩ <;> intro x <;> simp

/-- Witness for C2 at a concrete request and processor. -/
theorem C2_customer_failure_stops_witness :
    (createPaymentIntent customerFailStripe sampleRequest).2.status = 500 :=
  (C2_customer_failure_stops customerFailStripe sampleRequest
    sampleError rfl).1

/-- C3: for every subscription-creation request on which all three
processor calls succeed, the handler makes exactly three calls in the
order customer, price, subscription; the price call uses the request's
programName and the subscription call binds the customer id to the price
id. -/
theorem C3_three_calls_in_order (st : Stripe) (req : PaymentRequest)
    (c : Customer) (p : Price) (s : Subscription)
    (hc : st.customersCreate (customerParamsOf req) = .ok c)
    (hp : st.pricesCreate (priceParamsOf req) = .ok p)
    (hs : st.subscriptionsCreate (subscriptionParamsOf c.id p.id) = .ok s) :
    (createPaymentIntent st req).1 =
      [.customersCreate (customerParamsOf req),
       .pricesCreate (priceParamsOf req),
       .subscriptionsCreate (subscriptionParamsOf c.id p.id)] ∧
    (priceParamsOf req).productName = req.programName ∧
    (subscriptionParamsOf c.id p.id).customer = c.id ∧
    (subscriptionParamsOf c.id p.id).itemsPrice = p.id := by
  refine ⟨?_, rfl, rfl, rfl⟩
  rcases hcs : getClientSecret s with e | cs
  · rw [createPaymentIntent_secretError st req c p s e hc hp hs hcs]
  · rw [createPaymentIntent_ok st req c p s cs hc hp hs hcs]

/-- Witness for C3 at a concrete request and processor. -/
theorem C3_three_calls_in_order_witness :
    (createPaymentIntent okStripe sampleRequest).1 =
      [.customersCreate (customerParamsOf sampleRequest),
       .pricesCreate (priceParamsOf sampleRequest),
       .subscriptionsCreate
         (subscriptionParamsOf sampleCustomer.id samplePrice.id)] :=
  (C3_three_calls_in_order okStripe sampleRequest sampleCustomer samplePrice
    sampleSubscription rfl rfl rfl).1

/-- C4: for every subscription-creation request on which all three
processor calls succeed (and the expanded latest invoice's payment intent
is present), the response is 200 with body {subscriptionId, clientSecret},
where subscriptionId is the subscription's id and clientSecret is the
client_secret of the expanded latest_invoice.payment_intent. -/
theorem C4_success_response_shape (st : Stripe) (req : PaymentRequest)
    (c : Customer) (p : Price) (s : Subscription) (inv : Invoice)
    (pi : PaymentIntent)
    (hc : st.customersCreate (customerParamsOf req) = .ok c)
    (hp : st.pricesCreate (priceParamsOf req) = .ok p)
    (hs : st.subscriptionsCreate (subscriptionParamsOf c.id p.id) = .ok s)
    (hinv : s.latest_invoice = some inv)
    (hpi : inv.payment_intent = some pi) :
    (createPaymentIntent st req).2 =
      ⟨200, .paymentJson s.id pi.client_secret⟩ := by
  have hcs : getClientSecret s = .ok pi.client_secret := by
    simp [getClientSecret, hinv, hpi]
  rw [createPaymentIntent_ok st req c p s pi.client_secret hc hp hs hcs]

/-- Witness for C4 at a concrete request and processor. -/
theorem C4_success_response_shape_witness :
    (createPaymentIntent okStripe sampleRequest).2 =
      ⟨200, .paymentJson "sub_123" "pi_secret_123"⟩ :=
  C4_success_response_shape okStripe sampleRequest sampleCustomer samplePrice
    sampleSubscription ⟨some ⟨"pi_secret_123"⟩⟩ ⟨"pi_secret_123"⟩
    rfl rfl rfl rfl rfl

/-- C5: for every subscription-creation request, a failure of any of the
three processor calls yields HTTP 500 with body {error: {message, type}}
taken from the raised error, with the same error shape at every step and
no further processor calls (in particular no cleanup calls) after the
failing one. -/
theorem C5_any_failure_500 (st : Stripe) (req : PaymentRequest) :
    (∀ e, st.customersCreate (customerParamsOf req) = .error e →
      createPaymentIntent st req =
        ([.customersCreate (customerParamsOf req)],
         ⟨500, .errorJson e.message e.errType⟩)) ∧
    (∀ c e, st.customersCreate (customerParamsOf req) = .ok c →
      st.pricesCreate (priceParamsOf req) = .error e →
      createPaymentIntent st req =
        ([.customersCreate (customerParamsOf req),
          .pricesCreate (priceParamsOf req)],
         ⟨500, .errorJson e.message e.errType⟩)) ∧
    (∀ c p e, st.customersCreate (customerParamsOf req) = .ok c →
      st.pricesCreate (priceParamsOf req) = .ok p →
      st.subscriptionsCreate (subscriptionParamsOf c.id p.id) = .error e →
      createPaymentIntent st req =
        ([.customersCreate (customerParamsOf req),
          .pricesCreate (priceParamsOf req),
          .subscriptionsCreate (subscriptionParamsOf c.id p.id)],
         ⟨500, .errorJson e.message e.errType⟩)) := by
  refine ⟨fun e hc => ?_, fun c e hc hp => ?_, fun c p e hc hp hs => ?_⟩
  · rw [createPaymentIntent_customerError st req e hc]; rfl
  · rw [createPaymentIntent_priceError st req c e hc hp]; rfl
  · rw [createPaymentIntent_subError st req c p e hc hp hs]; rfl

/-- Witness for C5 at a concrete request and a processor failing at the
price step. -/
theorem C5_any_failure_500_witness :
    createPaymentIntent priceFailStripe sampleRequest =
      ([.customersCreate (customerParamsOf sampleRequest),
        .pricesCreate (priceParamsOf sampleRequest)],
       ⟨500, .errorJson sampleError.message sampleError.errType⟩) :=
  (C5_any_failure_500 priceFailStripe sampleRequest).2.1
    sampleCustomer sampleError rfl rfl

/-- C6: for every webhook request whose signature fails verification, the
handler responds HTTP 400 with a plain-text error and never reaches
event-type dispatch (the dispatch log is never produced). -/
theorem C6_bad_signature_400
    (constructEvent : String → Option String → String → Except JsError Event)
    (body : String) (sig : Option String) (secret : String) (err : JsError)
    (h : constructEvent body sig secret = .error err) :
    webhookHandler constructEvent body sig secret =
      (⟨400, .text ("Webhook Error: " ++ err.message)⟩, none) := by
  rw [webhookHandler, h]

/-- Witness for C6 at a concrete webhook request. -/
theorem C6_bad_signature_400_witness :
    webhookHandler failVerify "payload" (some "t=1,v1=bad") "whsec_test" =
      (⟨400, .text ("Webhook Error: " ++ badSigError.message)⟩, none) :=
  C6_bad_signature_400 failVerify "payload" (some "t=1,v1=bad") "whsec_test"
    badSigError rfl

/-- C7: for every webhook request whose signature verifies, the handler
responds HTTP 200 with {received: true} regardless of the event's type
tag; the type tag only determines the dispatch log line. -/
theorem C7_verified_always_received
    (constructEvent : String → Option String → String → Except JsError Event)
    (body : String) (sig : Option String) (secret : String) (event : Event)
    (h : constructEvent body sig secret = .ok event) :
    webhookHandler constructEvent body sig secret =
      (⟨200, .receivedJson⟩, some (dispatchLog event)) := by
  rw [webhookHandler, h]

/-- Witness for C7 at a concrete webhook request with type
"payment_intent.succeeded". -/
theorem C7_verified_always_received_witness :
    webhookHandler okVerify "payload" (some "t=1,v1=good") "whsec_test" =
      (⟨200, .receivedJson⟩, some (dispatchLog sampleEvent)) :=
  C7_verified_always_received okVerify "payload" (some "t=1,v1=good")
    "whsec_test" sampleEvent rfl

/-- C8: for every subscription-creation request whose programPrice string
is not convertible to a number (parseFloat yields NaN), no local
validation error is raised: once customer creation succeeds, the handler
makes the price-creation call, and every price-creation call it makes
forwards unit_amount = NaN (NaN * 100 = NaN). -/
theorem C8_nan_price_forwarded (st : Stripe) (req : PaymentRequest)
    (hnan : parseFloat req.programPrice = .nan) :
    (∀ pp, StripeCall.pricesCreate pp ∈ (createPaymentIntent st req).1 →
      pp.unit_amount = .nan) ∧
    (∀ c, st.customersCreate (customerParamsOf req) = .ok c →
      StripeCall.pricesCreate (priceParamsOf req) ∈
        (createPaymentIntent st req).1) := by
  constructor
  · intro pp hmem
    rw [trace_pricesCreate_eq st req pp hmem, priceParamsOf, hnan]
    rfl
  · intro c hc
    exact pricesCreate_mem_trace st req c hc

/-- Witness for C8 at a concrete request with programPrice = "free". -/
theorem C8_nan_price_forwarded_witness :
    (priceParamsOf nanRequest).unit_amount = .nan :=
  (C8_nan_price_forwarded okStripe nanRequest (by decide)).1
    (priceParamsOf nanRequest)
    ((C8_nan_price_forwarded okStripe nanRequest (by decide)).2
      sampleCustomer rfl)

/-- C9: getPriceIdForProgram maps exactly the three fixed program names
'strength', 'complete', and 'group' to their placeholder price-identifier
strings, and no request handler consults it: for every request to every
route, the response is the same under any two lookup tables. -/
theorem C9_price_lookup_dead_code :
    getPriceIdForProgram "strength" = some "price_id_for_strength" ∧
    getPriceIdForProgram "complete" = some "price_id_for_complete" ∧
    getPriceIdForProgram "group" = some "price_id_for_group" ∧
    (∀ n, n ≠ "strength" → n ≠ "complete" → n ≠ "group" →
      getPriceIdForProgram n = none) ∧
    (∀ st constructEvent secret f g r,
      handleRequest st constructEvent secret f r =
        handleRequest st constructEvent secret g r) := by
  refine ⟨rfl, rfl, rfl, ?_, ?_⟩
  · intro n h1 h2 h3
    have e1 : (n == "strength") = false := by simp [h1]
    have e2 : (n == "complete") = false := by simp [h2]
    have e3 : (n == "group") = false := by simp [h3]
    simp [getPriceIdForProgram, priceIds, List.lookup, e1, e2, e3]
  · intro st constructEvent secret f g r
    cases r <;> rfl

/-- Witness for C9: a name outside the table maps to none. -/
theorem C9_price_lookup_dead_code_witness :
    getPriceIdForProgram "basic" = none :=
  C9_price_lookup_dead_code.2.2.2.1 "basic"
    (by decide) (by decide) (by decide)

/-- C10: for every subscription-creation request on which all three
processor calls succeed but the returned subscription's latest_invoice or
its payment_intent is missing, the unguarded client_secret extraction
raises inside the try block and the handler responds HTTP 500 with
{error: {message, type}} rather than crashing or returning success. -/
theorem C10_missing_invoice_500 (st : Stripe) (req : PaymentRequest)
    (c : Customer) (p : Price) (s : Subscription)
    (hc : st.customersCreate (customerParamsOf req) = .ok c)
    (hp : st.pricesCreate (priceParamsOf req) = .ok p)
    (hs : st.subscriptionsCreate (subscriptionParamsOf c.id p.id) = .ok s)
    (hmiss : s.latest_invoice = none ∨
      ∃ inv, s.latest_invoice = some inv ∧ inv.payment_intent = none) :
    (createPaymentIntent st req).2.status = 500 ∧
    ∃ m t, (createPaymentIntent st req).2.body = .errorJson m t := by
  have hcs : ∃ e, getClientSecret s = .error e := by
    rcases hmiss with hnone | ⟨inv, hinv, hpi⟩
    · exact ⟨⟨"Cannot read properties of null (reading 'payment_intent')",
        none⟩, by simp [getClientSecret, hnone]⟩
    · exact ⟨⟨"Cannot read properties of null (reading 'client_secret')",
        none⟩, by simp [getClientSecret, hinv, hpi]⟩
  rcases hcs with ⟨e, hcs⟩
  rw [createPaymentIntent_secretError st req c p s e hc hp hs hcs]
  exact ⟨rfl, e.message, e.errType, rfl⟩

/-- Witness for C10 at a concrete processor returning a subscription
without a latest invoice. -/
theorem C10_missing_invoice_500_witness :
    (createPaymentIntent noInvoiceStripe sampleRequest).2.status = 500 :=
  (C10_missing_invoice_500 noInvoiceStripe sampleRequest sampleCustomer
    samplePrice noInvoiceSubscription rfl rfl rfl (Or.inl rfl)).1

end Server
